import Mathlib

/-!
# Verification of the Paris rent-accessibility pipeline (`src/app.py`)

A shallow embedding of the data pipeline of the application:

* `load_data`  — year filter, rent-column numeric coercion, `dropna`,
  JSON geometry decode (`safe_json_load`), and the emitted UI signals
  (lines 21–78 of `app.py`);
* the per-criteria stage — `col_loyer_map` / tier selection,
  `df_filtered`, `loyer_estime`, `dans_le_budget` (lines 116–140);
* `quartiers_info` — `groupby('nom_quartier')`, `any`,
  `sort_values(['nb_pieces','loyer_estime'])`, tooltip lines, and the
  representative `geo_points` (lines 142–166);
* the rendering loop — `points_inverted` with Python indexing/iteration
  semantics and the `except (TypeError, IndexError)` guard
  (lines 172–199).

Floating-point cells that matter to the claims (NaN from
`pd.to_numeric(..., errors='coerce')`, infinities) are modelled by the
inductive `Val`; exact decimal values are rationals.
-/

/-- A pandas float cell: NaN (produced by `errors='coerce'` on an
unparseable string, and dropped by `dropna`), the two infinities, or a
finite decimal value modelled exactly as a rational. -/
inductive Val where
  | nan
  | inf
  | neginf
  | finite (q : ℚ)
deriving DecidableEq, Repr

namespace Val

/-- `pd.isna` on the cell: exactly the NaN case. -/
def isNan : Val → Bool
  | .nan => true
  | _ => false

/-- The cell holds a finite number. -/
def isFinite : Val → Bool
  | .finite _ => true
  | _ => false

/-- IEEE-754 multiplication of a cell by a positive finite scalar
(the surface, an integer from the UI, ≥ 10): NaN propagates, infinities
keep their sign. (`s` positive is the only case the app exercises.) -/
def mulPos (v : Val) (s : ℚ) : Val :=
  match v with
  | .nan => .nan
  | .inf => .inf
  | .neginf => .neginf
  | .finite q => .finite (q * s)

/-- IEEE-754 comparison `v <= b` against a finite budget: `NaN <= b`
is `False`, `inf <= b` is `False`, `-inf <= b` is `True`. -/
def leB (v : Val) (b : ℚ) : Bool :=
  match v with
  | .nan => false
  | .inf => false
  | .neginf => true
  | .finite q => decide (q ≤ b)

/-- The total preorder `sort_values` uses on one float column:
numeric order with NaN placed last (`na_position='last'`). -/
def sortLe : Val → Val → Bool
  | .nan, .nan => true
  | .nan, _ => false
  | _, .nan => true
  | .neginf, _ => true
  | _, .neginf => false
  | .inf, .inf => true
  | .inf, _ => false
  | _, .inf => true
  | .finite a, .finite b => decide (a ≤ b)

end Val

/-- A decoded JSON value, as Python represents it after `json.loads`:
number, string, boolean, null, array (list), or object (dict with
string keys). -/
inductive J where
  | num (q : ℚ)
  | str (s : String)
  | boolean (b : Bool)
  | null
  | arr (l : List J)
  | obj (l : List (String × J))

/-- The raw `geo_shape` cell of one row: missing (NaN, removed by
`dropna`), a string that fails to decode (malformed JSON, a non-string
cell raising `TypeError`, or JSON lacking a `'coordinates'` key — the
cases `safe_json_load` turns into `None`), or a successfully decoded
`'coordinates'` payload. -/
inductive GeoShape where
  | missing
  | invalid
  | coords (j : J)

/-- The `geo_shape` cell is present (not NaN), whatever its content. -/
def GeoShape.isPresent : GeoShape → Bool
  | .missing => false
  | _ => true

/-- `safe_json_load` (app.py lines 63–67): the decoded `'coordinates'`
value, or `None` on failure. A JSON `null` payload decodes to Python
`None` and is likewise removed by the following `dropna`. -/
def safe_json_load : GeoShape → Option J
  | .missing => none
  | .invalid => none
  | .coords .null => none
  | .coords j => some j

/-- One CSV row after `pd.read_csv` and the column renaming
(app.py lines 31–47), before any filtering. Rent cells are already
through `pd.to_numeric(str.replace(',', '.'), errors='coerce')`:
an unparseable cell is `Val.nan`. `nom_quartier` is `none` when the
cell is missing (NaN). -/
structure RawRow where
  annee : Int
  secteur_geo : String
  num_quartier : String
  nom_quartier : Option String
  nb_pieces : Int
  epoque_construction : String
  type_location : String
  loyer_ref : Val
  loyer_majore : Val
  loyer_minore : Val
  insee_quartier : String
  geo_shape : GeoShape

/-- A row of the cleaned dataframe returned by `load_data`: year 2025,
non-NaN rents, a present neighborhood name, and a decoded `geo_points`
payload. -/
structure CleanRow where
  annee : Int
  secteur_geo : String
  num_quartier : String
  nom_quartier : String
  nb_pieces : Int
  epoque_construction : String
  type_location : String
  loyer_ref : Val
  loyer_majore : Val
  loyer_minore : Val
  insee_quartier : String
  geo_points : J

/-- The user-visible signals the script can emit on the paths the
claims are about. -/
inductive Signal where
  | warningNoData2025
  | warningNoMatch
  | errorNoData
deriving DecidableEq, Repr

/-- The row-wise predicate of
`df.dropna(subset=cols_loyer + ['geo_shape', 'nom_quartier'])`
(app.py line 61): keep the row iff none of the three rent cells is NaN
and the `geo_shape` and `nom_quartier` cells are present. -/
def dropna_row (r : RawRow) : Bool :=
  !r.loyer_ref.isNan && !r.loyer_majore.isNan && !r.loyer_minore.isNan
    && r.geo_shape.isPresent && r.nom_quartier.isSome

/-- The row-wise effect of `df['geo_points'] = df['geo_shape'].apply(safe_json_load)`
followed by `df.dropna(subset=['geo_points'])` (app.py lines 69–70):
the row survives with its decoded geometry, or is dropped. -/
def geo_row (r : RawRow) : Option CleanRow :=
  match safe_json_load r.geo_shape, r.nom_quartier with
  | some j, some nq =>
      some { annee := r.annee, secteur_geo := r.secteur_geo,
             num_quartier := r.num_quartier, nom_quartier := nq,
             nb_pieces := r.nb_pieces,
             epoque_construction := r.epoque_construction,
             type_location := r.type_location,
             loyer_ref := r.loyer_ref, loyer_majore := r.loyer_majore,
             loyer_minore := r.loyer_minore,
             insee_quartier := r.insee_quartier, geo_points := j }
  | _, _ => none

/-- `load_data` (app.py lines 22–72), from the parsed CSV rows onward:
filter `annee == 2025`; if empty, warn ("no data for 2025") and return
the empty dataframe; otherwise coerce/drop invalid rows and decode
geometry. Returns the cleaned rows and the emitted signals. -/
def load_data (rows : List RawRow) : List CleanRow × List Signal :=
  let df := rows.filter (fun r => r.annee == 2025)
  if df.isEmpty then
    ([], [Signal.warningNoData2025])
  else
    (((df.filter dropna_row).filterMap geo_row), [])

/-- The top-level empty-data check (app.py lines 83 and 203–204): when
`load_data` returns an empty dataframe the script shows the final
error message ("data could not be loaded or no data for 2025"). -/
def run_signals (rows : List RawRow) : List Signal :=
  let res := load_data rows
  if res.1.isEmpty then res.2 ++ [Signal.errorNoData] else res.2

/-- The three options of the "Type de loyer à considérer" selectbox
(app.py line 116). -/
def loyer_options : List String :=
  ["Loyers de référence majorés", "Loyers de référence",
   "Loyers de référence minorés"]

/-- `col_loyer_map` (app.py lines 123–127): selectbox label →
dataframe column name. -/
def col_loyer_map : List (String × String) :=
  [("Loyers de référence majorés", "loyer_majore"),
   ("Loyers de référence", "loyer_ref"),
   ("Loyers de référence minorés", "loyer_minore")]

/-- Access a rent column of a cleaned row by dataframe column name
(`df_filtered[col]`). -/
def getCol (r : CleanRow) (col : String) : Option Val :=
  if col = "loyer_ref" then some r.loyer_ref
  else if col = "loyer_majore" then some r.loyer_majore
  else if col = "loyer_minore" then some r.loyer_minore
  else none

/-- The resolved rent column for a selectbox label
(`col_loyer_selection = col_loyer_map[loyer_a_utiliser]`, line 128),
then the row's value in that column. -/
def selected_loyer (r : CleanRow) (loyer_a_utiliser : String) : Option Val :=
  (col_loyer_map.lookup loyer_a_utiliser).bind (getCol r)

/-- The three resolved rent columns, as an enumeration: the selectbox
(line 117) only ever produces one of the three labels of
`loyer_options`, and `col_loyer_map` maps them to these columns. -/
inductive Tier where
  | majore
  | ref
  | minore
deriving DecidableEq, Repr

/-- The selectbox label resolved to this column. -/
def Tier.label : Tier → String
  | .majore => "Loyers de référence majorés"
  | .ref => "Loyers de référence"
  | .minore => "Loyers de référence minorés"

/-- The rent cell of the row in the selected column. -/
def colVal (r : CleanRow) : Tier → Val
  | .majore => r.loyer_majore
  | .ref => r.loyer_ref
  | .minore => r.loyer_minore

/-- The string-level column resolution agrees with the enumeration:
for each selectbox label, `col_loyer_map` lookup followed by column
access yields exactly the corresponding rent field. -/
theorem selected_loyer_eq_colVal (r : CleanRow) (t : Tier) :
    selected_loyer r t.label = some (colVal r t) := by
  cases t <;> rfl

/-- The user criteria of the sidebar (app.py lines 87–121): budget and
surface (integers from `number_input`, modelled as rationals), the
rental type, the selected construction eras, and the selected rent
tier. -/
structure Criteria where
  budget : ℚ
  surface : ℚ
  type_loc : String
  epoque_selection : List String
  tier : Tier

/-- `df_filtered` (app.py lines 131–134): keep rows whose
`type_location` equals the selected one and whose
`epoque_construction` is in the multiselect. -/
def df_filtered (c : Criteria) (rows : List CleanRow) : List CleanRow :=
  rows.filter (fun r =>
    r.type_location == c.type_loc
      && decide (r.epoque_construction ∈ c.epoque_selection))

/-- A row with its derived columns `loyer_estime` and `dans_le_budget`
(app.py lines 139–140). -/
structure EstRow where
  base : CleanRow
  loyer_estime : Val
  dans_le_budget : Bool

/-- `df_filtered['loyer_estime'] = df_filtered[col_loyer_selection] * surface`
and `dans_le_budget = loyer_estime <= budget` (app.py lines 139–140),
row-wise. -/
def est (c : Criteria) (r : CleanRow) : EstRow :=
  let e := (colVal r c.tier).mulPos c.surface
  { base := r, loyer_estime := e, dans_le_budget := e.leB c.budget }

/-- The estimated dataframe the aggregation loop runs over. -/
def df_est (c : Criteria) (rows : List CleanRow) : List EstRow :=
  (df_filtered c rows).map (est c)

/-- The comparator of
`group.sort_values(['nb_pieces', 'loyer_estime'])` (app.py line 147):
ascending by `nb_pieces`, ties ordered by `loyer_estime` under the
pandas float order (NaN last). -/
def rowLe (a b : EstRow) : Bool :=
  decide (a.base.nb_pieces < b.base.nb_pieces)
    || (a.base.nb_pieces == b.base.nb_pieces
        && a.loyer_estime.sortLe b.loyer_estime)

/-- `rowLe` as a relation, for the sorting function. -/
def rowLeP (a b : EstRow) : Prop := rowLe a b = true

instance : DecidableRel rowLeP := fun a b =>
  inferInstanceAs (Decidable (rowLe a b = true))

/-- One tooltip line of the popup (app.py lines 152–159): the fields
interpolated into `line_content`, in display order. -/
structure LineItem where
  nb_pieces : Int
  epoque : String
  loyer_m2 : Val
  loyer_estime : Val
  check : Bool

/-- Build the tooltip line of one sorted row (app.py lines 152–156). -/
def mkLine (c : Criteria) (r : EstRow) : LineItem :=
  { nb_pieces := r.base.nb_pieces,
    epoque := r.base.epoque_construction,
    loyer_m2 := colVal r.base c.tier,
    loyer_estime := r.loyer_estime,
    check := r.dans_le_budget }

/-- The group keys produced by `df_filtered.groupby('nom_quartier')`
(app.py line 144): the distinct neighborhood names, in ascending
order (pandas sorts group keys by default). -/
def group_names (l : List EstRow) : List String :=
  ((l.map (fun r => r.base.nom_quartier)).dedup).insertionSort
    (fun a b => a ≤ b)

/-- The rows of one group, in dataframe order (`groupby` preserves the
within-group row order). -/
def group_rows (l : List EstRow) (name : String) : List EstRow :=
  l.filter (fun r => r.base.nom_quartier == name)

/-- The per-neighborhood record stored in `quartiers_info[name]`
(app.py lines 162–166): the accessibility verdict, the ordered tooltip
lines, and the representative geometry `group.iloc[0]['geo_points']`. -/
structure QInfo where
  accessible : Bool
  tooltip : List LineItem
  geo_points : J

/-- The body of the aggregation loop for one group
(app.py lines 145–166): `is_accessible = group['dans_le_budget'].any()`,
`group_sorted = group.sort_values(['nb_pieces', 'loyer_estime'])`, the
tooltip lines in sorted order, and the first row's geometry. -/
def mkQInfo (c : Criteria) (group : List EstRow) : QInfo :=
  { accessible := group.any (fun r => r.dans_le_budget),
    tooltip := (group.insertionSort rowLeP).map (mkLine c),
    geo_points := (group.head?.map (fun r => r.base.geo_points)).getD J.null }

/-- `quartiers_info` (app.py lines 143–166): one entry per group key,
in the `groupby` key order; insertion order is preserved by the Python
dict, so this association list is also the iteration order of the
rendering loop. -/
def quartiers_info (c : Criteria) (l : List EstRow) : List (String × QInfo) :=
  (group_names l).map (fun n => (n, mkQInfo c (group_rows l n)))

/-- A Python exception relevant to the rendering loop. -/
inductive PyErr where
  | typeError
  | indexError
  | keyError
deriving DecidableEq, Repr

/-- Python subscripting `x[i]` for a non-negative integer `i` on a
decoded JSON value: lists index (raising `IndexError` out of range),
strings index into characters, dicts raise `KeyError` (their keys are
strings, never the integer `i`), and numbers, booleans and `None`
raise `TypeError`. -/
def J.index : J → Nat → Except PyErr J
  | .arr l, i =>
      match l.get? i with
      | some x => .ok x
      | none => .error .indexError
  | .str s, i =>
      match s.toList.get? i with
      | some ch => .ok (.str (String.mk [ch]))
      | none => .error .indexError
  | .obj _, _ => .error .keyError
  | .num _, _ => .error .typeError
  | .boolean _, _ => .error .typeError
  | .null, _ => .error .typeError

/-- Python iteration `for point in x`: lists yield elements, strings
yield one-character strings, dicts yield their keys; numbers, booleans
and `None` raise `TypeError`. -/
def J.iter : J → Except PyErr (List J)
  | .arr l => .ok l
  | .str s => .ok (s.toList.map (fun ch => .str (String.mk [ch])))
  | .obj l => .ok (l.map (fun p => .str p.1))
  | .num _ => .error .typeError
  | .boolean _ => .error .typeError
  | .null => .error .typeError

/-- `points_inverted = [[point[1], point[0]] for point in info['geo_points'][0]]`
(app.py line 176), with Python's evaluation order and exception
behavior made explicit. -/
def points_inverted (gp : J) : Except PyErr (List J) := do
  let first ← gp.index 0
  let pts ← first.iter
  pts.mapM (fun p => do
    let a ← p.index 1
    let b ← p.index 0
    pure (J.arr [a, b]))

/-- The `try`/`except (TypeError, IndexError)` body for one
neighborhood of the rendering loop (app.py lines 175–199): on success
the polygon is drawn from the inverted points, a caught exception
skips the polygon (`pass`), and any other exception escapes the loop. -/
def render_quartier (info : QInfo) : Except PyErr (Option (List J)) :=
  match points_inverted info.geo_points with
  | .ok pts => .ok (some pts)
  | .error .typeError => .ok none
  | .error .indexError => .ok none
  | .error e => .error e

/-- The axis swap `[point[1], point[0]]` applied to one well-formed
coordinate pair (a list with at least two entries); other values are
returned unchanged (the hypotheses of the theorems rule them out). -/
def swapPair : J → J
  | .arr (x :: y :: _) => J.arr [y, x]
  | j => j

/-- A well-formed Polygon `coordinates` payload: one ring of
longitude–latitude pairs. -/
def polyA : J :=
  J.arr [J.arr [J.arr [J.num 2, J.num 48], J.arr [J.num 3, J.num 49]]]

/-- A representative 2025 CSV row with valid cells, used to instantiate
the theorems at concrete inputs. -/
def rawA : RawRow :=
  { annee := 2025, secteur_geo := "1", num_quartier := "1",
    nom_quartier := some "Quartier A", nb_pieces := 2,
    epoque_construction := "Avant 1946", type_location := "non meublé",
    loyer_ref := Val.finite 30, loyer_majore := Val.finite 36,
    loyer_minore := Val.finite 21, insee_quartier := "7510101",
    geo_shape := GeoShape.coords polyA }

/-- `rawA` with a `geo_shape` string that fails to decode. -/
def rawBadGeo : RawRow := { rawA with geo_shape := GeoShape.invalid }

/-- `rawA` with `annee = 2024`. -/
def raw2024 : RawRow := { rawA with annee := 2024 }

/-- `rawA` with a negative reference rent and an infinite capped rent:
cells `pd.to_numeric` accepts and `dropna` does not remove. -/
def rawNeg : RawRow :=
  { rawA with loyer_ref := Val.finite (-5), loyer_majore := Val.inf }

/-- The cleaned row `load_data` derives from `rawA`. -/
def cleanA : CleanRow :=
  { annee := 2025, secteur_geo := "1", num_quartier := "1",
    nom_quartier := "Quartier A", nb_pieces := 2,
    epoque_construction := "Avant 1946", type_location := "non meublé",
    loyer_ref := Val.finite 30, loyer_majore := Val.finite 36,
    loyer_minore := Val.finite 21, insee_quartier := "7510101",
    geo_points := polyA }

/-- The cleaned row `load_data` derives from `rawNeg`. -/
def cleanNeg : CleanRow :=
  { cleanA with loyer_ref := Val.finite (-5), loyer_majore := Val.inf }

/-- `cleanA` with an infinite capped rent. -/
def cleanInf : CleanRow := { cleanA with loyer_majore := Val.inf }

/-- `cleanA` with three principal rooms and dearer rents. -/
def cleanA3 : CleanRow :=
  { cleanA with
    nb_pieces := 3
    loyer_ref := Val.finite 28
    loyer_majore := Val.finite 33
    loyer_minore := Val.finite 20 }

/-- Concrete search criteria matching `cleanA` (the defaults of the
sidebar, with the capped tier). -/
def critA : Criteria :=
  { budget := 1500, surface := 30, type_loc := "non meublé",
    epoque_selection := ["Avant 1946"], tier := Tier.majore }

/-- Criteria selecting the other rental type, matching no row of the
fixtures. -/
def critB : Criteria := { critA with type_loc := "meublé" }

/-- The float column order used by `sort_values` is total. -/
theorem Val.sortLe_total (a b : Val) :
    a.sortLe b = true ∨ b.sortLe a = true := by
  cases a <;> cases b <;> simp [Val.sortLe] <;> exact le_total _ _

/-- The float column order used by `sort_values` is transitive. -/
theorem Val.sortLe_trans (a b c : Val) (hab : a.sortLe b = true)
    (hbc : b.sortLe c = true) : a.sortLe c = true := by
  cases a <;> cases b <;> cases c <;>
    simp [Val.sortLe] at hab hbc ⊢ <;> exact le_trans hab hbc

/-- The two-column `sort_values` order is total. -/
theorem rowLe_total (a b : EstRow) : rowLeP a b ∨ rowLeP b a := by
  unfold rowLeP rowLe
  rcases lt_trichotomy a.base.nb_pieces b.base.nb_pieces with h | h | h
  · left; simp [h]
  · rcases Val.sortLe_total a.loyer_estime b.loyer_estime with hs | hs
    · left; simp [h, hs]
    · right; simp [h, hs]
  · right; simp [h]

/-- The two-column `sort_values` order is transitive. -/
theorem rowLe_trans (a b c : EstRow) (hab : rowLeP a b) (hbc : rowLeP b c) :
    rowLeP a c := by
  unfold rowLeP rowLe at hab hbc ⊢
  simp only [Bool.or_eq_true, Bool.and_eq_true, decide_eq_true_eq,
    beq_iff_eq] at hab hbc ⊢
  rcases hab with h1 | ⟨e1, s1⟩ <;> rcases hbc with h2 | ⟨e2, s2⟩
  · exact Or.inl (h1.trans h2)
  · exact Or.inl (e2 ▸ h1)
  · exact Or.inl (e1 ▸ h2)
  · exact Or.inr ⟨e1.trans e2, Val.sortLe_trans _ _ _ s1 s2⟩

instance : IsTotal EstRow rowLeP := ⟨rowLe_total⟩

instance : IsTrans EstRow rowLeP := ⟨rowLe_trans⟩

/-- Looking a key up in a map built over a list of keys yields the
associated value exactly when the key occurs. -/
theorem lookup_map_key {β : Type} (f : String → β) (ns : List String)
    (n : String) :
    (ns.map (fun m => (m, f m))).lookup n
      = if n ∈ ns then some (f n) else none := by
  induction ns with
  | nil => simp
  | cons a as ih =>
    by_cases h : a = n
    · subst h; simp [List.lookup]
    · have hna : ¬n = a := fun e => h e.symm
      have hne : (n == a) = false := beq_eq_false_iff_ne.mpr hna
      simp only [List.map_cons, List.lookup, hne, ih, List.mem_cons]
      simp [hna]

/-- `quartiers_info` lookup: the aggregation of the group of that name
when the name has a group, nothing otherwise. -/
theorem lookup_quartiers_info (c : Criteria) (l : List EstRow)
    (n : String) :
    (quartiers_info c l).lookup n
      = if n ∈ group_names l then some (mkQInfo c (group_rows l n))
        else none := by
  unfold quartiers_info
  exact lookup_map_key _ _ _

/-- A name is a `groupby` key iff some estimated row carries it. -/
theorem mem_group_names (l : List EstRow) (n : String) :
    n ∈ group_names l ↔ ∃ r ∈ l, r.base.nom_quartier = n := by
  unfold group_names
  rw [List.mem_insertionSort, List.mem_dedup, List.mem_map]

/-- `load_data` in closed form: the year filter, the `dropna`, and the
geometry decode, whatever the empty-year branch did. -/
theorem load_data_fst (rows : List RawRow) :
    (load_data rows).1
      = ((rows.filter (fun r => r.annee == 2025)).filter
          dropna_row).filterMap geo_row := by
  unfold load_data
  by_cases h : (rows.filter (fun r => r.annee == 2025)).isEmpty
  · rw [List.isEmpty_iff] at h
    simp [h]
  · simp [h]

/-- A row whose geometry cell does not decode yields no cleaned row. -/
theorem geo_row_eq_none (r : RawRow) (h : safe_json_load r.geo_shape = none) :
    geo_row r = none := by
  unfold geo_row
  rw [h]

/-- C1: the claim says a record with undecodable geometry is kept in
the accessibility computation; in the code `load_data` drops it
entirely (app.py line 70). At this concrete input — one valid 2025 row
whose `geo_shape` fails to decode — the cleaned dataframe is empty, so
the record reaches neither the accessibility computation nor the
geometry output, and its neighborhood is absent from
`quartiers_info`. -/
theorem bad_geometry_kept_counterexample :
    (load_data [rawBadGeo]).1 = []
      ∧ quartiers_info critA (df_est critA (load_data [rawBadGeo]).1) = [] :=
  ⟨rfl, rfl⟩

/-- C1 (amended): a record whose geometry fails to decode is excluded
from the whole pipeline output at load time — from the accessibility
computation as well as from the geometry output: `load_data` returns
the same cleaned rows as on the input with those records removed. -/
theorem bad_geometry_rows_dropped (rows : List RawRow) :
    (load_data rows).1
      = (load_data (rows.filter
          (fun r => (safe_json_load r.geo_shape).isSome))).1 := by
  rw [load_data_fst, load_data_fst]
  simp only [List.filter_filter]
  induction rows with
  | nil => rfl
  | cons r rs ih =>
    by_cases hg : (safe_json_load r.geo_shape).isSome
    · by_cases h25 : (r.annee == 2025) = true <;>
        by_cases hd : dropna_row r = true <;>
          simp [List.filter_cons, List.filterMap_cons, hg, h25, hd, ih]
    · have hnone : safe_json_load r.geo_shape = none := by
        cases hsj : safe_json_load r.geo_shape
        · rfl
        · rw [hsj] at hg; simp at hg
      have hgr : geo_row r = none := geo_row_eq_none r hnone
      by_cases h25 : (r.annee == 2025) = true <;>
        by_cases hd : dropna_row r = true <;>
          simp [List.filter_cons, List.filterMap_cons, hg, h25, hd, hgr, ih]

/-- C5: the claim says the empty input and the all-non-2025 input are
reported distinguishably; in the code both take the `df.empty` branch
of app.py line 52 and emit the same "no data for 2025" warning and the
same final error message, so the two reported conditions are equal. -/
theorem no_data_signals_counterexample :
    run_signals [raw2024] = run_signals []
      ∧ run_signals [] = [Signal.warningNoData2025, Signal.errorNoData] :=
  ⟨rfl, rfl⟩

/-- C5 (amended): an input whose rows all have a year other than 2025
produces exactly the signals of the empty input — the "no data for
2025" warning (app.py line 53) followed by the final error message
(line 204); the two conditions are not distinguished. -/
theorem signals_non2025_eq_empty (rows : List RawRow)
    (h : ∀ r ∈ rows, r.annee ≠ 2025) :
    run_signals rows = [Signal.warningNoData2025, Signal.errorNoData]
      ∧ run_signals rows = run_signals [] := by
  have hf : rows.filter (fun r => r.annee == 2025) = [] :=
    List.filter_eq_nil_iff.mpr (fun r hr => by simp [h r hr])
  constructor <;> simp [run_signals, load_data, hf]

/-- Witness for the amended C5 at a concrete non-2025 input. -/
theorem signals_non2025_eq_empty_witness :
    run_signals [raw2024] = [Signal.warningNoData2025, Signal.errorNoData]
      ∧ run_signals [raw2024] = run_signals [] :=
  signals_non2025_eq_empty [raw2024] (by decide)

/-- C6: the claim says a non-finite selected rent makes the estimator
fail with a ComputationError; the code (app.py line 139) has no such
error path — at this concrete input, a row whose selected (capped)
rent is `inf`, the estimator produces an `EstRow` with an infinite
estimate and `dans_le_budget = false`, raising nothing. -/
theorem nonfinite_rent_counterexample :
    est critA cleanInf
      = { base := cleanInf, loyer_estime := Val.inf,
          dans_le_budget := false } :=
  rfl

/-- C6 (amended): the estimator is total — on a record whose selected
per-m2 rent is non-finite it still produces an estimated record, whose
estimate is non-finite in turn; unless the rent is negative infinity
the record is marked out of budget. No error is raised. -/
theorem nonfinite_rent_estimated (c : Criteria) (r : CleanRow)
    (h : (colVal r c.tier).isFinite = false) :
    (est c r).loyer_estime.isFinite = false
      ∧ (colVal r c.tier ≠ Val.neginf → (est c r).dans_le_budget = false) := by
  cases hv : colVal r c.tier <;>
    simp [hv, Val.isFinite] at h ⊢ <;>
    simp [est, hv, Val.mulPos, Val.leB, Val.isFinite]

/-- Witness for the amended C6 at the infinite-rent row. -/
theorem nonfinite_rent_estimated_witness :
    (est critA cleanInf).loyer_estime.isFinite = false
      ∧ (colVal cleanInf critA.tier ≠ Val.neginf
          → (est critA cleanInf).dans_le_budget = false) :=
  nonfinite_rent_estimated critA cleanInf rfl

/-- C7: the claim says the rent fields are non-null, finite and
non-negative after parsing, rows violating this being dropped; at this
concrete input `load_data` keeps a row whose reference rent is the
negative `-5` and whose capped rent is `inf`, so finiteness and
non-negativity are not enforced. -/
theorem rent_invariant_counterexample :
    (load_data [rawNeg]).1 = [cleanNeg]
      ∧ cleanNeg.loyer_ref = Val.finite (-5)
      ∧ cleanNeg.loyer_majore = Val.inf :=
  ⟨rfl, rfl, rfl⟩

/-- C7 (amended): after `load_data` the three rent fields are non-null
(rows with an unparseable, hence NaN, rent cell are dropped by the
`dropna` of app.py line 61); finiteness and non-negativity are not
checked, and rows with negative or infinite rents are retained. -/
theorem rents_non_null_after_load (rows : List RawRow) (c : CleanRow)
    (h : c ∈ (load_data rows).1) :
    c.loyer_ref.isNan = false ∧ c.loyer_majore.isNan = false
      ∧ c.loyer_minore.isNan = false := by
  rw [load_data_fst] at h
  obtain ⟨r, hr, hgeo⟩ := List.mem_filterMap.mp h
  have hd := (List.mem_filter.mp hr).2
  unfold dropna_row at hd
  simp only [Bool.and_eq_true, Bool.not_eq_true'] at hd
  unfold geo_row at hgeo
  rcases hsj : safe_json_load r.geo_shape with _ | j <;> rw [hsj] at hgeo
  · simp at hgeo
  · rcases hnq : r.nom_quartier with _ | nq <;> rw [hnq] at hgeo
    · simp at hgeo
    · simp only [Option.some.injEq] at hgeo
      subst hgeo
      exact ⟨hd.1.1.1.1, hd.1.1.1.2, hd.1.1.2⟩

/-- Witness for the amended C7 at the valid fixture row. -/
theorem rents_non_null_after_load_witness :
    cleanA.loyer_ref.isNan = false ∧ cleanA.loyer_majore.isNan = false
      ∧ cleanA.loyer_minore.isNan = false :=
  rents_non_null_after_load [rawA] cleanA
    (by simp [show (load_data [rawA]).1 = [cleanA] from rfl])

/-- C2: the estimated monthly rent is the per-m2 rent field selected
by the tier, multiplied by the surface: for each of the three tiers
the estimate is exactly that tier's field times the surface; the
string-level selectbox resolution (`col_loyer_map`) sends each label
to that same field; the estimate under a tier depends on no other rent
field (no cross-contamination); and on finite cells the product is the
exact rational product, with no truncation. -/
theorem estimated_rent_eq_selected_tier_times_surface (c : Criteria)
    (r r2 : CleanRow) :
    ((est { c with tier := Tier.majore } r).loyer_estime
        = r.loyer_majore.mulPos c.surface
      ∧ (est { c with tier := Tier.ref } r).loyer_estime
        = r.loyer_ref.mulPos c.surface
      ∧ (est { c with tier := Tier.minore } r).loyer_estime
        = r.loyer_minore.mulPos c.surface)
    ∧ (∀ t : Tier, selected_loyer r t.label = some (colVal r t))
    ∧ (∀ t : Tier, colVal r t = colVal r2 t →
        (est { c with tier := t } r).loyer_estime
          = (est { c with tier := t } r2).loyer_estime)
    ∧ (∀ q : ℚ, Val.mulPos (Val.finite q) c.surface
        = Val.finite (q * c.surface)) := by
  refine ⟨⟨rfl, rfl, rfl⟩, fun t => selected_loyer_eq_colVal r t, ?_,
    fun q => rfl⟩
  intro t h
  simp [est, h]

/-- Witness for C2 at concrete rows and criteria. -/
theorem estimated_rent_eq_selected_tier_witness :
    (est { critA with tier := Tier.majore } cleanA).loyer_estime
      = cleanA.loyer_majore.mulPos critA.surface :=
  (estimated_rent_eq_selected_tier_times_surface critA cleanA cleanA3).1.1

/-- C3: a neighborhood's entry in `quartiers_info` has
`accessible = true` iff at least one of its estimated records is
within budget; in particular, with no record of the group within
budget the flag is false. -/
theorem isAccessible_iff_some_within_budget (c : Criteria)
    (rows : List CleanRow) (n : String) (info : QInfo)
    (h : (quartiers_info c (df_est c rows)).lookup n = some info) :
    info.accessible = true
      ↔ ∃ e ∈ df_est c rows,
          e.base.nom_quartier = n ∧ e.dans_le_budget = true := by
  rw [lookup_quartiers_info] at h
  by_cases hm : n ∈ group_names (df_est c rows)
  · rw [if_pos hm] at h
    obtain rfl : mkQInfo c (group_rows (df_est c rows) n) = info :=
      Option.some.inj h
    unfold mkQInfo group_rows
    simp only [List.any_eq_true]
    constructor
    · rintro ⟨e, he, hb⟩
      have hm2 := List.mem_filter.mp he
      exact ⟨e, hm2.1, by simpa using hm2.2, hb⟩
    · rintro ⟨e, he, hn, hb⟩
      exact ⟨e, List.mem_filter.mpr ⟨he, by simp [hn]⟩, hb⟩
  · rw [if_neg hm] at h
    cases h

/-- Witness for C3: with the fixture row affordable under the default
criteria, the aggregated flag of its neighborhood is true. -/
theorem isAccessible_iff_witness :
    (mkQInfo critA (group_rows (df_est critA [cleanA])
      "Quartier A")).accessible = true := by
  refine (isAccessible_iff_some_within_budget critA [cleanA]
    "Quartier A" _ rfl).mpr ?_
  refine ⟨est critA cleanA, ?_, rfl, ?_⟩
  · show est critA cleanA ∈ [est critA cleanA]
    exact List.mem_singleton_self _
  · show decide ((36 : ℚ) * 30 ≤ 1500) = true
    simp only [decide_eq_true_eq]
    norm_num

/-- C8: a neighborhood none of whose records matches the selected
rental type and construction-era set is entirely absent from the
aggregated output. -/
theorem filtered_out_quartier_absent (c : Criteria)
    (rows : List CleanRow) (n : String)
    (h : ∀ r ∈ rows, r.nom_quartier = n →
      r.type_location ≠ c.type_loc
        ∨ r.epoque_construction ∉ c.epoque_selection) :
    (quartiers_info c (df_est c rows)).lookup n = none := by
  rw [lookup_quartiers_info, if_neg]
  rw [mem_group_names]
  rintro ⟨e, he, hn⟩
  obtain ⟨r, hr, rfl⟩ := List.mem_map.mp he
  have hf := List.mem_filter.mp hr
  simp only [Bool.and_eq_true, beq_iff_eq, decide_eq_true_eq] at hf
  have hn2 : r.nom_quartier = n := hn
  rcases h r hf.1 hn2 with h1 | h1
  · exact h1 hf.2.1
  · exact h1 hf.2.2

/-- Witness for C8: under criteria selecting the other rental type,
the fixture neighborhood is absent. -/
theorem filtered_out_quartier_absent_witness :
    (quartiers_info critB (df_est critB [cleanA])).lookup "Quartier A"
      = none :=
  filtered_out_quartier_absent critB [cleanA] "Quartier A" (by decide)

/-- C10: the aggregated mapping enumerates, in ascending lexicographic
order and without repetition, exactly the distinct neighborhood names
of the filtered, estimated dataset. -/
theorem quartiers_enumerated_in_ascending_name_order (c : Criteria)
    (rows : List CleanRow) :
    List.Sorted (fun a b : String => a ≤ b)
        ((quartiers_info c (df_est c rows)).map Prod.fst)
      ∧ ((quartiers_info c (df_est c rows)).map Prod.fst).Nodup
      ∧ ∀ n, n ∈ (quartiers_info c (df_est c rows)).map Prod.fst
          ↔ ∃ e ∈ df_est c rows, e.base.nom_quartier = n := by
  have hmapfst : ∀ ns : List String,
      (ns.map (fun n =>
        (n, mkQInfo c (group_rows (df_est c rows) n)))).map Prod.fst = ns := by
    intro ns
    induction ns with
    | nil => rfl
    | cons a as ih => simp [ih]
  have hkeys : (quartiers_info c (df_est c rows)).map Prod.fst
      = group_names (df_est c rows) := by
    unfold quartiers_info
    exact hmapfst _
  rw [hkeys]
  refine ⟨List.sorted_insertionSort _ _, ?_,
    fun n => mem_group_names _ n⟩
  exact ((List.perm_insertionSort _ _).nodup_iff).mpr (List.nodup_dedup _)

/-- C4: within one neighborhood entry, the tooltip line items are
non-decreasing by room count, and among equal room counts
non-decreasing by estimated rent (in the float column order). -/
theorem lineItems_sorted_by_rooms_then_rent (c : Criteria)
    (rows : List CleanRow) (n : String) (info : QInfo)
    (h : (quartiers_info c (df_est c rows)).lookup n = some info) :
    info.tooltip.Pairwise (fun a b =>
      a.nb_pieces < b.nb_pieces
        ∨ (a.nb_pieces = b.nb_pieces
            ∧ a.loyer_estime.sortLe b.loyer_estime = true)) := by
  rw [lookup_quartiers_info] at h
  by_cases hm : n ∈ group_names (df_est c rows)
  · rw [if_pos hm] at h
    obtain rfl : mkQInfo c (group_rows (df_est c rows) n) = info :=
      Option.some.inj h
    unfold mkQInfo
    rw [List.pairwise_map]
    have hs : List.Pairwise rowLeP
        ((group_rows (df_est c rows) n).insertionSort rowLeP) :=
      List.sorted_insertionSort rowLeP _
    refine hs.imp ?_
    intro a b hab
    unfold rowLeP rowLe at hab
    simp only [Bool.or_eq_true, Bool.and_eq_true, decide_eq_true_eq,
      beq_iff_eq] at hab
    simpa [mkLine] using hab
  · rw [if_neg hm] at h
    cases h

/-- Witness for C4 at a two-row neighborhood. -/
theorem lineItems_sorted_witness :
    (mkQInfo critA (group_rows (df_est critA [cleanA3, cleanA])
      "Quartier A")).tooltip.Pairwise (fun a b =>
        a.nb_pieces < b.nb_pieces
          ∨ (a.nb_pieces = b.nb_pieces
              ∧ a.loyer_estime.sortLe b.loyer_estime = true)) :=
  lineItems_sorted_by_rooms_then_rent critA [cleanA3, cleanA]
    "Quartier A" _ rfl

/-- C9: the claim says malformed or empty geometry never throws past
the rendering boundary; the `except` clause of app.py line 198 catches
only `TypeError` and `IndexError`, so at this concrete input — a
decoded `coordinates` payload that is a JSON object — the subscript
raises `KeyError` and the exception escapes the rendering loop. -/
theorem geometry_keyerror_counterexample :
    points_inverted (J.obj [("type", J.str "Polygon")])
        = Except.error PyErr.keyError
      ∧ render_quartier
          { accessible := false
            tooltip := []
            geo_points := J.obj [("type", J.str "Polygon")] }
        = Except.error PyErr.keyError :=
  ⟨rfl, rfl⟩

/-- C9 (amended): on a well-formed polygon payload the renderer list
is the first ring with every coordinate pair's axes swapped; a
malformed payload failing with `TypeError` or `IndexError` is caught,
and only the polygon is skipped — but an object-valued payload raises
an uncaught `KeyError` (see the counterexample). -/
theorem points_inverted_first_ring_swapped (pts rest : List J)
    (info : QInfo) (e : PyErr) :
    ((∀ p ∈ pts, ∃ x y : ℚ, p = J.arr [J.num x, J.num y]) →
      points_inverted (J.arr (J.arr pts :: rest))
        = Except.ok (pts.map swapPair))
    ∧ (points_inverted info.geo_points = Except.error e →
        e ≠ PyErr.keyError → render_quartier info = Except.ok none) := by
  constructor
  · intro h
    have hmap : ∀ l : List J,
        (∀ p ∈ l, ∃ x y : ℚ, p = J.arr [J.num x, J.num y]) →
        (l.mapM (fun p => do
          let a ← p.index 1
          let b ← p.index 0
          pure (J.arr [a, b])) : Except PyErr (List J))
          = Except.ok (l.map swapPair) := by
      intro l
      induction l with
      | nil => intro _; rfl
      | cons p ps ih =>
        intro hl
        obtain ⟨x, y, rfl⟩ := hl p (List.mem_cons_self p ps)
        rw [List.mapM_cons, ih (fun q hq => hl q (List.mem_cons_of_mem _ hq))]
        rfl
    calc points_inverted (J.arr (J.arr pts :: rest))
        = pts.mapM (fun p => do
            let a ← p.index 1
            let b ← p.index 0
            pure (J.arr [a, b])) := rfl
      _ = Except.ok (pts.map swapPair) := hmap pts h
  · intro hp hne
    unfold render_quartier
    rw [hp]
    cases e
    · rfl
    · rfl
    · exact absurd rfl hne

/-- Witness for the amended C9: the fixture polygon is swapped as
specified, and a number-valued payload is skipped without escaping. -/
theorem points_inverted_first_ring_swapped_witness :
    points_inverted polyA
        = Except.ok [J.arr [J.num 48, J.num 2], J.arr [J.num 49, J.num 3]]
      ∧ render_quartier
          { accessible := true
            tooltip := []
            geo_points := J.num 7 } = Except.ok none := by
  constructor
  · have h := (points_inverted_first_ring_swapped
        [J.arr [J.num 2, J.num 48], J.arr [J.num 3, J.num 49]] []
        { accessible := true, tooltip := [], geo_points := J.num 7 }
        PyErr.typeError).1 ?_
    · exact h
    · intro p hp
      simp only [List.mem_cons, List.not_mem_nil, or_false] at hp
      rcases hp with rfl | rfl
      · exact ⟨2, 48, rfl⟩
      · exact ⟨3, 49, rfl⟩
  · exact (points_inverted_first_ring_swapped [] []
      { accessible := true, tooltip := [], geo_points := J.num 7 }
      PyErr.typeError).2 rfl (by decide)
